import Mathlib

/-!
A shallow embedding of the Zcash mining and blockchain RPC handlers of this
repository (src/rpc/mining.cpp and src/rpc/blockchain.cpp), together with
theorems about the getblocktemplate, submitblock, getblocksubsidy,
interpretHeightArg and BIP22ValidationResult logic.

Conventions of the embedding:
- uint256 block hashes are opaque identifiers, modelled as natural numbers;
- CAmount and block heights are mathematical integers (C++ int64_t overflow is
  not exercised by any of the stated properties);
- external collaborators that the handlers call (GetBlockSubsidy,
  NetworkUpgradeActive, GetActiveFundingStreams, DecodeHexBlk,
  TestBlockValidity, ProcessNewBlock, CreateNewBlock, the block index and the
  mempool counters) are fields of explicit environment records, so every
  theorem quantifies over their behaviour;
- code that throws JSONRPCError is modelled with the Except monad;
- the static (process-wide) variables of getblocktemplate are threaded as an
  explicit state record.
-/

deriving instance DecidableEq for Except

namespace ZMining

/-- Opaque 32-byte block or transaction hash (uint256). -/
abbrev HashId := Nat

/-- A conclusive RPC reply value: UniValue that is either null or a string. -/
inductive RpcResult
| null
| str (s : String)
deriving DecidableEq

/-- An error thrown via JSONRPCError, identified by its error category and
message (mirroring the RPC_* error codes used in the source). -/
inductive RpcError
| invalidParameter (msg : String)
| typeError (msg : String)
| deserializationError (msg : String)
| verifyError (msg : String)
| methodNotFound (msg : String)
| clientNotConnected (msg : String)
| clientInInitialDownload (msg : String)
| outOfMemory (msg : String)
| internalError (msg : String)
deriving DecidableEq

/-- Modelled from the spec: the mode of a CValidationState
(consensus/validation.h is not part of this excerpt). The spec's
validation-result translation distinguishes a valid state, an invalid state,
an internal-error state, and defensively "any other uncategorized state". -/
inductive ValidationMode
| valid
| invalid
| error
| uncategorized
deriving DecidableEq

/-- Modelled from the spec: a CValidationState as observed by the RPC layer,
its mode together with the reject reason returned by GetRejectReason. -/
structure CValidationState where
  mode : ValidationMode
  rejectReason : String
deriving DecidableEq

/-- CValidationState.IsValid. -/
def CValidationState.IsValid (s : CValidationState) : Bool :=
  match s.mode with
  | .valid => true
  | _ => false

/-- CValidationState.IsInvalid. -/
def CValidationState.IsInvalid (s : CValidationState) : Bool :=
  match s.mode with
  | .invalid => true
  | _ => false

/-- CValidationState.IsError. -/
def CValidationState.IsError (s : CValidationState) : Bool :=
  match s.mode with
  | .error => true
  | _ => false

/-- CValidationState.GetRejectReason. -/
def CValidationState.GetRejectReason (s : CValidationState) : String :=
  s.rejectReason

/-- BIP22ValidationResult from src/rpc/mining.cpp: translate a conclusive
validator state into the BIP22 reply value, throwing RPC_VERIFY_ERROR on an
internal-error state. -/
def BIP22ValidationResult (state : CValidationState) : Except RpcError RpcResult :=
  if state.IsValid then Except.ok RpcResult.null
  else
    let strRejectReason := state.GetRejectReason
    if state.IsError then Except.error (RpcError.verifyError strRejectReason)
    else if state.IsInvalid then
      if strRejectReason = "" then Except.ok (RpcResult.str "rejected")
      else Except.ok (RpcResult.str strRejectReason)
    else
      -- Should be impossible
      Except.ok (RpcResult.str "valid?")

/-- interpretHeightArg from src/rpc/blockchain.cpp: sanity-check a height
argument and interpret negative values relative to the current height. -/
def interpretHeightArg (nHeight currentHeight : Int) : Except RpcError Int :=
  let adjusted := if nHeight < 0 then nHeight + currentHeight + 1 else nHeight
  if adjusted < 0 ∨ adjusted > currentHeight then
    Except.error (RpcError.invalidParameter "Block height out of range")
  else
    Except.ok adjusted

/-- An active funding stream as returned by Consensus::GetActiveFundingStreams:
its recipient and specification strings and its value function (the prescribed
fraction, applied by FSInfo.Value to the block subsidy). -/
structure FundingStreamInfo where
  recipient : String
  specification : String
  valueAt : Int → Int

/-- The consensus collaborators consumed by getblocksubsidy, as abstract
functions of the height: GetBlockSubsidy, NetworkUpgradeActive for Canopy,
GetActiveFundingStreams and GetLastFoundersRewardBlockHeight. -/
structure ConsensusParams where
  blockSubsidy : Int → Int
  canopyActive : Int → Bool
  activeFundingStreams : Int → List FundingStreamInfo
  lastFoundersRewardHeight : Int → Int

/-- The reply of getblocksubsidy: miner and founders amounts, and the
fundingstreams array (present only on the Canopy branch), each stream entry
being its recipient, specification and valueZat. -/
structure BlockSubsidyResult where
  miner : Int
  founders : Int
  fundingstreams : Option (List (String × String × Int))
deriving DecidableEq

/-- Sum of the valueZat amounts of the fundingstreams array of a
getblocksubsidy reply (0 when the array is absent). -/
def streamSum (r : BlockSubsidyResult) : Int :=
  match r.fundingstreams with
  | none => 0
  | some l => (l.map (fun s => s.2.2)).sum

/-- getblocksubsidy from src/rpc/mining.cpp, applied to an already-interpreted
height argument: reject negative heights, then decompose the base subsidy into
funding streams (Canopy active), founders' reward (positive heights up to the
last founders' reward height), or plain miner reward. The loop over streams
subtracts each stream amount from the miner reward as the source does. -/
def getblocksubsidy (c : ConsensusParams) (nHeight : Int) :
    Except RpcError BlockSubsidyResult :=
  if nHeight < 0 then
    Except.error (RpcError.invalidParameter "Block height out of range")
  else
    let nBlockSubsidy := c.blockSubsidy nHeight
    if c.canopyActive nHeight then
      let fsinfos := c.activeFundingStreams nHeight
      let streams := fsinfos.map
        (fun fs => (fs.recipient, fs.specification, fs.valueAt nBlockSubsidy))
      let nMinerReward := fsinfos.foldl
        (fun acc fs => acc - fs.valueAt nBlockSubsidy) nBlockSubsidy
      Except.ok ⟨nMinerReward, 0, some streams⟩
    else if 0 < nHeight ∧ nHeight ≤ c.lastFoundersRewardHeight nHeight then
      let nFoundersReward := Int.tdiv nBlockSubsidy 5
      Except.ok ⟨nBlockSubsidy - nFoundersReward, nFoundersReward, none⟩
    else
      Except.ok ⟨nBlockSubsidy, 0, none⟩

/-- A CBlock as far as the submission paths inspect it: its own hash (GetHash)
and the hash of its predecessor (hashPrevBlock). -/
structure CBlock where
  hash : HashId
  hashPrevBlock : HashId
deriving DecidableEq

/-- A mapBlockIndex entry as inspected by the submission paths: the result of
IsValid(BLOCK_VALID_SCRIPTS) and of testing nStatus against BLOCK_FAILED_MASK. -/
structure CBlockIndexEntry where
  validScripts : Bool
  failedMask : Bool
deriving DecidableEq

/-- A speculative coinbase transaction; the height it was created for is the
height argument that was passed to CreateCoinbaseTransaction. -/
structure Coinbase where
  forHeight : Int
deriving DecidableEq

/-- A block template produced by CreateNewBlock, identified opaquely so that
reuse of the stored template is observable. -/
structure CBlockTemplate where
  id : Nat
deriving DecidableEq

/-- The process-wide static variables of getblocktemplate:
nTransactionsUpdatedLast, cached_next_cb_mtx, cached_next_cb_height,
pindexPrev (identified by block hash, none for nullptr), nStart and
pblocktemplate (none for nullptr). -/
structure MiningStatics where
  nTransactionsUpdatedLast : Nat
  cached_next_cb_mtx : Option Coinbase
  cached_next_cb_height : Int
  pindexPrev : Option HashId
  nStart : Int
  pblocktemplate : Option CBlockTemplate
deriving DecidableEq

/-- One wake-up of the long-poll wait: whether cvBlockChange.timed_wait timed
out, and the chain tip, mempool updated-counter and IsRPCRunning flag observed
after re-acquiring cs_main. -/
structure WaitObs where
  timedout : Bool
  tipHash : HashId
  tipHeight : Int
  mempoolUpdated : Nat
  rpcRunning : Bool
deriving DecidableEq

/-- The longpollid parameter: absent (null), a string already split into its
watched block hash (first 64 hex digits) and transaction count (decimal tail),
or a non-null non-string value. -/
inductive LongPollVal
| absent
| strVal (watched : HashId) (count : Nat)
| nonString
deriving DecidableEq

/-- State at exit of the long-poll wait loop: the world observed last (tip,
mempool counter, IsRPCRunning) together with the cached-coinbase statics and
the local next_cb_mtx. -/
structure LoopEnd where
  tipHash : HashId
  tipHeight : Int
  mempoolUpdated : Nat
  rpcRunning : Bool
  cache : Option Coinbase
  cacheHeight : Int
  next : Option Coinbase
deriving DecidableEq

/-- The long-poll wait loop of getblocktemplate (the while loop over
cvBlockChange): while the tip hash equals the watched hash and the RPC is
running, precompute a shielded coinbase for height nHeight + 2 if none is
cached, wait, then break on a tip change, or break discarding the pending
coinbase on a timeout with mempool progress past the client's count. The trace
lists the successive wake-up observations; none means the trace ended with the
loop still waiting. The body's precomputation step is split out as lpStep: if
no coinbase is cached and the miner address is shielded, cache one for height
nHeight + 2 and make it the pending coinbase. -/
def lpStep (shielded : Bool) (nHeight : Int) (cache : Option Coinbase)
    (cacheH : Int) (next : Option Coinbase) :
    Option Coinbase × Int × Option Coinbase :=
  if cache.isNone ∧ shielded = true then
    (some (Coinbase.mk (nHeight + 2)), nHeight + 2,
     some (Coinbase.mk (nHeight + 2)))
  else (cache, cacheH, next)

def lpWait (shielded : Bool) (nHeight : Int) (watched : HashId) (lpLast : Nat) :
    List WaitObs → HashId → Int → Nat → Bool → Option Coinbase → Int →
    Option Coinbase → Option LoopEnd
  | [], curHash, curHeight, curMem, curRunning, cache, cacheH, next =>
      if curHash = watched ∧ curRunning = true then none
      else some ⟨curHash, curHeight, curMem, curRunning, cache, cacheH, next⟩
  | o :: rest, curHash, curHeight, curMem, curRunning, cache, cacheH, next =>
      if curHash = watched ∧ curRunning = true then
        let step := lpStep shielded nHeight cache cacheH next
        if o.tipHash ≠ watched then
          some ⟨o.tipHash, o.tipHeight, o.mempoolUpdated, o.rpcRunning,
                step.1, step.2.1, step.2.2⟩
        else if o.timedout = true ∧ o.mempoolUpdated ≠ lpLast then
          some ⟨o.tipHash, o.tipHeight, o.mempoolUpdated, o.rpcRunning,
                step.1, step.2.1, none⟩
        else
          lpWait shielded nHeight watched lpLast rest o.tipHash o.tipHeight
            o.mempoolUpdated o.rpcRunning step.1 step.2.1 step.2.2
      else
        some ⟨curHash, curHeight, curMem, curRunning, cache, cacheH, next⟩

/-- Whether a longpollid parameter is non-null (lpval.isNull() is false). -/
def LongPollVal.isPresent : LongPollVal → Bool
  | .absent => false
  | _ => true

/-- The environment of one getblocktemplate call: configuration, chain and
mempool state at entry, and the external collaborators it invokes. -/
structure GBTEnv where
  minerConfigured : Bool
  networkID : String
  vNodesEmpty : Bool
  initialBlockDownload : Bool
  tipHash : HashId
  tipHeight : Int
  rpcRunning : Bool
  mempoolUpdated : Nat
  mempoolSize : Nat
  now : Int
  shieldedMiner : Bool
  minerValid : Bool
  createNewBlock : Option Coinbase → Option CBlockTemplate
  decodeHexBlk : String → Option CBlock
  blockIndex : HashId → Option CBlockIndexEntry
  testBlockValidity : CBlock → CValidationState

/-- The observable outcome of the template-mode path: which argument (if any)
CreateNewBlock was invoked with, and the template the JSON reply was generated
from. -/
structure TemplateOut where
  builderArg : Option (Option Coinbase)
  template : Option CBlockTemplate
deriving DecidableEq

/-- A getblocktemplate reply: either the verdict of the proposal branch or the
template-mode outcome. -/
inductive GBTReply
| proposalReply (r : RpcResult)
| templateReply (t : TemplateOut)
deriving DecidableEq

/-- The wait performed by the longpoll branch of getblocktemplate (starting
from the entry tip, with the entry-checked cache): dispatch on the longpollid,
taking the watched hash and count from the string when it is one, or watching
the current tip with the current static count otherwise; absent means no loop
runs at all. -/
def gbtWait (env : GBTEnv) (lpv : LongPollVal) (st : MiningStatics)
    (cache0 : Option Coinbase) (trace : List WaitObs) : Option LoopEnd :=
  match lpv with
  | .absent =>
      some ⟨env.tipHash, env.tipHeight, env.mempoolUpdated, env.rpcRunning,
            cache0, st.cached_next_cb_height, cache0⟩
  | .strVal watched count =>
      lpWait env.shieldedMiner env.tipHeight watched count trace env.tipHash
        env.tipHeight env.mempoolUpdated env.rpcRunning cache0
        st.cached_next_cb_height cache0
  | .nonString =>
      lpWait env.shieldedMiner env.tipHeight env.tipHash
        st.nTransactionsUpdatedLast trace env.tipHash env.tipHeight
        env.mempoolUpdated env.rpcRunning cache0 st.cached_next_cb_height cache0

/-- The entry check of getblocktemplate on its cached coinbase: use the cached
shielded coinbase only if its recorded height is still entry tip height + 2. -/
def entryCache (env : GBTEnv) (st : MiningStatics) : Option Coinbase :=
  if st.cached_next_cb_height ≠ env.tipHeight + 2 then none
  else st.cached_next_cb_mtx

/-- The pending coinbase after the long-poll wait: on the longpoll path an
unexpected height (reorg or more than one block arrived while waiting)
invalidates it; without a longpollid it is left as it was. -/
def postWaitNext (lpv : LongPollVal) (nHeight : Int) (w : LoopEnd) :
    Option Coinbase :=
  match lpv with
  | .absent => w.next
  | _ => if w.tipHeight ≠ nHeight + 1 then none else w.next

/-- The rebuild condition of getblocktemplate: a longpollid was given, the tip
differs from the one recorded at the last build, or the mempool
updated-counter moved and more than 5 seconds have passed since the last
build. -/
def rebuildDecision (lpPresent : Bool) (st : MiningStatics) (tipHash : HashId)
    (mempoolUpdated : Nat) (now : Int) : Bool :=
  lpPresent || decide (st.pindexPrev ≠ some tipHash) ||
    (decide (mempoolUpdated ≠ st.nTransactionsUpdatedLast) &&
     decide (now - st.nStart > 5))

/-- The template-mode body of getblocktemplate (after the mode dispatch and
connectivity guards): clear the cached coinbase when its recorded height is
not entry tip + 2, run the long-poll wait when a longpollid was given (then
discard the pending coinbase unless the tip advanced by exactly one, and fail
with "Shutting down" when the RPC stopped), then rebuild the stored template
when the rebuild condition holds, or reuse it. The result is none when the
wait trace ends with the loop still blocked; otherwise the thrown error or the
outcome, paired with the statics after the call. -/
def templateMode (env : GBTEnv) (lpv : LongPollVal) (st : MiningStatics)
    (trace : List WaitObs) :
    Option (Except RpcError TemplateOut × MiningStatics) :=
  -- Use the cached shielded coinbase only if the height hasn't changed.
  match gbtWait env lpv st (entryCache env st) trace with
  | none => none
  | some w =>
      let next1 : Option Coinbase := postWaitNext lpv env.tipHeight w
      let st1 : MiningStatics :=
        { st with cached_next_cb_mtx := w.cache,
                  cached_next_cb_height := w.cacheHeight }
      let lpPresent : Bool := lpv.isPresent
      if lpPresent = true ∧ w.rpcRunning = false then
        some (Except.error (RpcError.clientNotConnected "Shutting down"), st1)
      else if rebuildDecision lpPresent st w.tipHash w.mempoolUpdated env.now then
        let ntul0 := w.mempoolUpdated
        let ntul := if next1.isSome ∧ env.mempoolSize > 0 then 0 else ntul0
        let pindexPrevNew := w.tipHash
        let stFail : MiningStatics :=
          { st1 with pindexPrev := none, nTransactionsUpdatedLast := ntul,
                     nStart := env.now, pblocktemplate := none }
        if env.minerValid = false then
          some (Except.error (RpcError.internalError
            "No miner address available (mining requires a wallet or -mineraddress)"),
            stFail)
        else
          match env.createNewBlock next1 with
          | none => some (Except.error (RpcError.outOfMemory "Out of memory"), stFail)
          | some tpl =>
              some (Except.ok ⟨some next1, some tpl⟩,
                { stFail with pindexPrev := some pindexPrevNew,
                              pblocktemplate := some tpl })
      else
        some (Except.ok ⟨none, st1.pblocktemplate⟩, st1)

/-- The proposal branch of getblocktemplate: decode the block, answer the
duplicate checks from the block index, reject a block not building on the
current tip, and otherwise translate the TestBlockValidity verdict through
BIP22ValidationResult. -/
def proposalBranch (env : GBTEnv) (dataval : Option String) :
    Except RpcError RpcResult :=
  match dataval with
  | none => Except.error (RpcError.typeError "Missing data String key for proposal")
  | some s =>
      match env.decodeHexBlk s with
      | none => Except.error (RpcError.deserializationError "Block decode failed")
      | some block =>
          match env.blockIndex block.hash with
          | some pindex =>
              if pindex.validScripts then Except.ok (RpcResult.str "duplicate")
              else if pindex.failedMask then
                Except.ok (RpcResult.str "duplicate-invalid")
              else Except.ok (RpcResult.str "duplicate-inconclusive")
          | none =>
              if block.hashPrevBlock ≠ env.tipHash then
                Except.ok (RpcResult.str "inconclusive-not-best-prevblk")
              else BIP22ValidationResult (env.testBlockValidity block)

/-- The mode parameter of the request object: absent (null), a string, or a
non-null non-string value (which is rejected as an invalid mode). -/
inductive ModeVal
| missing
| strVal (s : String)
| other
deriving DecidableEq

/-- The parsed request object of getblocktemplate: whether a parameter object
was passed at all, and its mode, longpollid and data members. The data member
is some s exactly when it is a string. -/
structure GBTParams where
  present : Bool
  modeval : ModeVal
  longpollid : LongPollVal
  dataval : Option String
deriving DecidableEq

/-- The longpollid value seen by the template-mode body: the longpollid member
when a request object was passed, and null otherwise. -/
def gbtLpv (p : GBTParams) : LongPollVal :=
  if p.present then p.longpollid else LongPollVal.absent

/-- getblocktemplate from src/rpc/mining.cpp: require a miner address or
wallet, parse the mode, run the proposal branch when requested (before any
connectivity guard), reject unknown modes, then guard on peer connectivity
(outside regtest) and initial block download, and finally run the
template-mode body. The result is none when the long-poll wait trace ends with
the loop still blocked; otherwise the thrown error or reply, paired with the
statics after the call. -/
def getblocktemplateRPC (env : GBTEnv) (p : GBTParams) (st : MiningStatics)
    (trace : List WaitObs) :
    Option (Except RpcError GBTReply × MiningStatics) :=
  -- Wallet or miner address is required because we support coinbasetxn
  if env.minerConfigured = false then
    some (Except.error (RpcError.methodNotFound
      "Wallet disabled and -mineraddress not set"), st)
  else
    let strMode : Except RpcError String :=
      if p.present then
        match p.modeval with
        | .strVal s => Except.ok s
        | .missing => Except.ok "template"
        | .other => Except.error (RpcError.invalidParameter "Invalid mode")
      else Except.ok "template"
    match strMode with
    | .error e => some (Except.error e, st)
    | .ok m =>
        if p.present = true ∧ m = "proposal" then
          some ((proposalBranch env p.dataval).map GBTReply.proposalReply, st)
        else if m ≠ "template" then
          some (Except.error (RpcError.invalidParameter "Invalid mode"), st)
        else if env.networkID ≠ "regtest" ∧ env.vNodesEmpty = true then
          some (Except.error (RpcError.clientNotConnected
            "Zcash is not connected!"), st)
        else if env.initialBlockDownload = true then
          some (Except.error (RpcError.clientInInitialDownload
            "Zcash is downloading blocks..."), st)
        else
          match templateMode env (gbtLpv p) st trace with
          | none => none
          | some (r, st') => some (r.map GBTReply.templateReply, st')

/-- The environment of one submitblock call: the block index and the behaviour
of ProcessNewBlock together with the one-shot StateCatcher observer (whether
BlockChecked was delivered for this block's hash, and with which state). -/
structure SubmitEnv where
  blockIndex : HashId → Option CBlockIndexEntry
  processNewBlockAccepts : Bool
  processState : CValidationState
  observerFires : Bool
  observerState : CValidationState

/-- The tail of submitblock after the duplicate check: run ProcessNewBlock
with the observer registered; a previously header-known block reports
duplicate-inconclusive when accepted without the observer firing and duplicate
otherwise; a new block reports inconclusive when accepted without the observer
firing, and otherwise translates the observer's state (when accepted) or
ProcessNewBlock's state through BIP22ValidationResult. -/
def submitCore (env : SubmitEnv) (fBlockPresent : Bool) :
    Except RpcError RpcResult :=
  let fAccepted := env.processNewBlockAccepts
  if fBlockPresent then
    if fAccepted = true ∧ env.observerFires = false then
      Except.ok (RpcResult.str "duplicate-inconclusive")
    else Except.ok (RpcResult.str "duplicate")
  else
    if fAccepted then
      if env.observerFires = false then Except.ok (RpcResult.str "inconclusive")
      else BIP22ValidationResult env.observerState
    else BIP22ValidationResult env.processState

/-- submitblock from src/rpc/mining.cpp, applied to an already-decoded block:
return duplicate or duplicate-invalid from the block index for fully valid or
failed blocks, and otherwise run ProcessNewBlock, remembering whether the
block was already present (header-known). -/
def submitblock (env : SubmitEnv) (block : CBlock) : Except RpcError RpcResult :=
  match env.blockIndex block.hash with
  | some pindex =>
      if pindex.validScripts then Except.ok (RpcResult.str "duplicate")
      else if pindex.failedMask then Except.ok (RpcResult.str "duplicate-invalid")
      else submitCore env true
  | none => submitCore env false

/-- A concrete consensus-parameter assignment used to exercise the theorems on
closed inputs: constant base subsidy, Canopy active from height 2 on, two
funding streams taking a fifth and a twentieth of the subsidy. -/
def cTest : ConsensusParams where
  blockSubsidy := fun _ => 625000000
  canopyActive := fun hgt => decide (2 ≤ hgt)
  activeFundingStreams := fun _ =>
    [⟨"ECC", "urlA", fun b => Int.tdiv b 5⟩, ⟨"ZF", "urlB", fun b => Int.tdiv b 20⟩]
  lastFoundersRewardHeight := fun _ => 1

/-- A concrete mining-statics assignment with nothing cached and no recorded
build, used to exercise the theorems on closed inputs. -/
def stTest : MiningStatics := ⟨0, none, 0, none, 0, none⟩

/-- A concrete call environment used to exercise the proposal path on closed
inputs: the block index knows nothing, the string "00ab" decodes to a block
whose parent is the tip, and the validator accepts every block. Connectivity
is deliberately absent (no peers, initial download in progress). -/
def envProposal : GBTEnv where
  minerConfigured := true
  networkID := "main"
  vNodesEmpty := true
  initialBlockDownload := true
  tipHash := 100
  tipHeight := 10
  rpcRunning := true
  mempoolUpdated := 0
  mempoolSize := 0
  now := 0
  shieldedMiner := false
  minerValid := true
  createNewBlock := fun _ => none
  decodeHexBlk := fun s => if s = "00ab" then some ⟨7, 100⟩ else none
  blockIndex := fun _ => none
  testBlockValidity := fun _ => ⟨ValidationMode.valid, ""⟩

/-- A concrete request object selecting proposal mode with data "00ab". -/
def pProposal : GBTParams := ⟨true, ModeVal.strVal "proposal", LongPollVal.absent, some "00ab"⟩

/-- A concrete request object selecting template mode (present, no mode key). -/
def pTemplate : GBTParams := ⟨true, ModeVal.missing, LongPollVal.absent, none⟩

/-- A concrete call environment used to exercise the template path on closed
inputs: regtest (so the connectivity guard passes), tip at height 10, a
shielded miner, and a builder that always returns template 1. -/
def envTemplateTest : GBTEnv where
  minerConfigured := true
  networkID := "regtest"
  vNodesEmpty := true
  initialBlockDownload := false
  tipHash := 100
  tipHeight := 10
  rpcRunning := true
  mempoolUpdated := 4
  mempoolSize := 0
  now := 50
  shieldedMiner := true
  minerValid := true
  createNewBlock := fun _ => some ⟨1⟩
  decodeHexBlk := fun _ => none
  blockIndex := fun _ => none
  testBlockValidity := fun _ => ⟨ValidationMode.valid, ""⟩

/-- Concrete statics holding a cached speculative coinbase built for height 12
(the entry tip height 10 plus 2), with no tip recorded from a previous build. -/
def stStale : MiningStatics := ⟨4, some ⟨12⟩, 12, none, 48, none⟩

/-- A concrete submission environment used on closed inputs: the index knows
block hash 5 as header-only (neither fully valid nor failed), ProcessNewBlock
accepts, and the observer fires with a valid state. -/
def envSubmitDup : SubmitEnv where
  blockIndex := fun hsh => if hsh = 5 then some ⟨false, false⟩ else none
  processNewBlockAccepts := true
  processState := ⟨ValidationMode.valid, ""⟩
  observerFires := true
  observerState := ⟨ValidationMode.valid, ""⟩

/-- Subtracting every mapped value inside a left fold is subtracting the sum. -/
theorem foldl_sub_eq_sub_sum {α : Type} (f : α → Int) :
    ∀ (l : List α) (b : Int),
      l.foldl (fun acc x => acc - f x) b = b - (l.map f).sum := by
  intro l
  induction l with
  | nil => intro b; simp
  | cons x xs ih =>
      intro b
      simp only [List.foldl_cons, List.map_cons, List.sum_cons, ih]
      ring

/-- A getblocktemplate call in proposal mode reduces to the proposal branch
applied to the data member, leaving the statics untouched. -/
theorem gbt_proposal_key (env : GBTEnv) (p : GBTParams) (st : MiningStatics)
    (trace : List WaitObs) (hconf : env.minerConfigured = true)
    (hp : p.present = true) (hm : p.modeval = ModeVal.strVal "proposal") :
    getblocktemplateRPC env p st trace =
      some ((proposalBranch env p.dataval).map GBTReply.proposalReply, st) := by
  simp [getblocktemplateRPC, hconf, hp, hm]

/-- The proposal branch reads only the decoder, the block index, the tip hash
and the validator from its environment. -/
theorem proposalBranch_congr (e1 e2 : GBTEnv) (d : Option String)
    (h1 : e1.decodeHexBlk = e2.decodeHexBlk)
    (h2 : e1.blockIndex = e2.blockIndex) (h3 : e1.tipHash = e2.tipHash)
    (h4 : e1.testBlockValidity = e2.testBlockValidity) :
    proposalBranch e1 d = proposalBranch e2 d := by
  unfold proposalBranch
  simp only [h1, h2, h3, h4]

/-- Evaluation of BIP22ValidationResult on a valid state. -/
theorem bip22_eval_valid (s : CValidationState)
    (h : s.mode = ValidationMode.valid) :
    BIP22ValidationResult s = Except.ok RpcResult.null := by
  obtain ⟨m, r⟩ := s
  subst h
  simp [BIP22ValidationResult, CValidationState.IsValid]

/-- Evaluation of BIP22ValidationResult on an invalid state with an empty
reject reason. -/
theorem bip22_eval_invalid_empty (s : CValidationState)
    (h : s.mode = ValidationMode.invalid) (hr : s.rejectReason = "") :
    BIP22ValidationResult s = Except.ok (RpcResult.str "rejected") := by
  obtain ⟨m, r⟩ := s
  subst h
  simp only at hr
  subst hr
  simp [BIP22ValidationResult, CValidationState.IsValid,
    CValidationState.IsError, CValidationState.IsInvalid,
    CValidationState.GetRejectReason]

/-- Evaluation of BIP22ValidationResult on an invalid state with a non-empty
reject reason. -/
theorem bip22_eval_invalid_nonempty (s : CValidationState)
    (h : s.mode = ValidationMode.invalid) (hr : s.rejectReason ≠ "") :
    BIP22ValidationResult s = Except.ok (RpcResult.str s.rejectReason) := by
  obtain ⟨m, r⟩ := s
  subst h
  simp only at hr
  simp [BIP22ValidationResult, CValidationState.IsValid,
    CValidationState.IsError, CValidationState.IsInvalid,
    CValidationState.GetRejectReason, hr]

/-- Evaluation of BIP22ValidationResult on an internal-error state. -/
theorem bip22_eval_error (s : CValidationState)
    (h : s.mode = ValidationMode.error) :
    BIP22ValidationResult s =
      Except.error (RpcError.verifyError s.rejectReason) := by
  obtain ⟨m, r⟩ := s
  subst h
  simp [BIP22ValidationResult, CValidationState.IsValid,
    CValidationState.IsError, CValidationState.GetRejectReason]

/-- C4: BIP22ValidationResult is a total case map over validator states: valid
yields null; invalid with empty reject reason yields "rejected"; invalid with
a non-empty reason yields that reason; an internal-error state throws
VerifyError carrying the reason; any other uncategorized state yields
"valid?"; and no state produces any other outcome. -/
theorem bip22_total_case_map (s : CValidationState) :
    (s.mode = ValidationMode.valid →
       BIP22ValidationResult s = Except.ok RpcResult.null) ∧
    (s.mode = ValidationMode.invalid → s.rejectReason = "" →
       BIP22ValidationResult s = Except.ok (RpcResult.str "rejected")) ∧
    (s.mode = ValidationMode.invalid → s.rejectReason ≠ "" →
       BIP22ValidationResult s = Except.ok (RpcResult.str s.rejectReason)) ∧
    (s.mode = ValidationMode.error →
       BIP22ValidationResult s =
         Except.error (RpcError.verifyError s.rejectReason)) ∧
    (s.mode = ValidationMode.uncategorized →
       BIP22ValidationResult s = Except.ok (RpcResult.str "valid?")) ∧
    (BIP22ValidationResult s = Except.ok RpcResult.null ∨
     BIP22ValidationResult s = Except.ok (RpcResult.str "rejected") ∨
     BIP22ValidationResult s = Except.ok (RpcResult.str s.rejectReason) ∨
     BIP22ValidationResult s =
       Except.error (RpcError.verifyError s.rejectReason) ∨
     BIP22ValidationResult s = Except.ok (RpcResult.str "valid?")) := by
  obtain ⟨m, r⟩ := s
  by_cases hr : r = "" <;>
    cases m <;>
      simp [BIP22ValidationResult, CValidationState.IsValid,
        CValidationState.IsError, CValidationState.IsInvalid,
        CValidationState.GetRejectReason, hr]

/-- Witness for C4: an invalid state with the non-empty reason "bad" is
translated to the string "bad". -/
theorem bip22_total_case_map_witness :
    BIP22ValidationResult ⟨ValidationMode.invalid, "bad"⟩ =
      Except.ok (RpcResult.str "bad") :=
  (bip22_total_case_map ⟨ValidationMode.invalid, "bad"⟩).2.2.1 rfl (by decide)

/-- C8: interpretHeightArg returns h itself for h in [0, T], maps negative h
to T + 1 + h when that lands in [0, T] (so -1 maps to T), and throws the
height-out-of-range error whenever the mapped value falls outside [0, T] (in
particular at -(T + 2)). -/
theorem interpretHeightArg_spec (h T : Int) (hT : 0 ≤ T) :
    (0 ≤ h → h ≤ T → interpretHeightArg h T = Except.ok h) ∧
    (h < 0 → 0 ≤ T + 1 + h → interpretHeightArg h T = Except.ok (T + 1 + h)) ∧
    (h < 0 → T + 1 + h < 0 →
       interpretHeightArg h T =
         Except.error (RpcError.invalidParameter "Block height out of range")) ∧
    (0 ≤ h → T < h →
       interpretHeightArg h T =
         Except.error (RpcError.invalidParameter "Block height out of range")) ∧
    interpretHeightArg (-1) T = Except.ok T ∧
    interpretHeightArg (-(T + 2)) T =
      Except.error (RpcError.invalidParameter "Block height out of range") := by
  have e : ∀ x : Int, interpretHeightArg x T =
      if (if x < 0 then x + T + 1 else x) < 0 ∨ T < (if x < 0 then x + T + 1 else x)
      then Except.error (RpcError.invalidParameter "Block height out of range")
      else Except.ok (if x < 0 then x + T + 1 else x) := by
    intro x
    simp only [interpretHeightArg, gt_iff_lt]
  refine ⟨?_, ?_, ?_, ?_, ?_, ?_⟩
  · intro h0 h1
    rw [e, if_neg (show ¬ h < 0 by omega),
      if_neg (show ¬ (h < 0 ∨ T < h) by omega)]
  · intro hneg hin
    rw [e, if_pos hneg, if_neg (show ¬ (h + T + 1 < 0 ∨ T < h + T + 1) by omega)]
    congr 1
    omega
  · intro hneg hout
    rw [e, if_pos hneg, if_pos (show h + T + 1 < 0 ∨ T < h + T + 1 by omega)]
  · intro h0 h1
    rw [e, if_neg (show ¬ h < 0 by omega), if_pos (show h < 0 ∨ T < h by omega)]
  · rw [e, if_pos (show (-1 : Int) < 0 by norm_num),
      if_neg (show ¬ ((-1 : Int) + T + 1 < 0 ∨ T < -1 + T + 1) by omega)]
    congr 1
    omega
  · rw [e, if_pos (show -(T + 2) < 0 by omega),
      if_pos (show -(T + 2) + T + 1 < 0 ∨ T < -(T + 2) + T + 1 by omega)]

/-- Witness for C8: with tip height 7, the argument -1 maps to 7 and the
argument -(7 + 2) throws the height-out-of-range error. -/
theorem interpretHeightArg_spec_witness :
    interpretHeightArg (-1) 7 = Except.ok 7 ∧
    interpretHeightArg (-(7 + 2)) 7 =
      Except.error (RpcError.invalidParameter "Block height out of range") :=
  ⟨(interpretHeightArg_spec (-3) 7 (by decide)).2.2.2.2.1,
   (interpretHeightArg_spec (-3) 7 (by decide)).2.2.2.2.2⟩

/-- C1: for every height h that getblocksubsidy accepts, the reply decomposes
the base block subsidy exactly: under Canopy each stream carries its
prescribed value, founders is 0 and miner is the base minus the stream total;
in the founders range founders is a fifth of the base, miner the rest, and no
streams are present; otherwise miner is the full base; and in all cases
miner + founders + stream total equals GetBlockSubsidy at h. -/
theorem getblocksubsidy_decomposes (c : ConsensusParams) (h : Int)
    (hh : 0 ≤ h) :
    ∃ r, getblocksubsidy c h = Except.ok r ∧
      (c.canopyActive h = true →
        r.founders = 0 ∧
        r.fundingstreams = some ((c.activeFundingStreams h).map
          (fun fs => (fs.recipient, fs.specification,
                      fs.valueAt (c.blockSubsidy h)))) ∧
        r.miner = c.blockSubsidy h -
          ((c.activeFundingStreams h).map
            (fun fs => fs.valueAt (c.blockSubsidy h))).sum) ∧
      (c.canopyActive h = false → 0 < h → h ≤ c.lastFoundersRewardHeight h →
        r.founders = Int.tdiv (c.blockSubsidy h) 5 ∧
        r.miner = c.blockSubsidy h - r.founders ∧
        r.fundingstreams = none) ∧
      (c.canopyActive h = false → ¬ (0 < h ∧ h ≤ c.lastFoundersRewardHeight h) →
        r.miner = c.blockSubsidy h ∧ r.founders = 0 ∧ r.fundingstreams = none) ∧
      r.miner + r.founders + streamSum r = c.blockSubsidy h := by
  unfold getblocksubsidy
  rw [if_neg (show ¬ h < 0 by omega)]
  by_cases hc : c.canopyActive h = true
  · rw [if_pos hc]
    refine ⟨_, rfl, ?_, ?_, ?_, ?_⟩
    · intro _
      refine ⟨rfl, rfl, ?_⟩
      simp only [foldl_sub_eq_sub_sum]
    · intro hfalse
      rw [hc] at hfalse
      exact absurd hfalse (by simp)
    · intro hfalse
      rw [hc] at hfalse
      exact absurd hfalse (by simp)
    · simp only [streamSum, List.map_map, foldl_sub_eq_sub_sum]
      have : ((c.activeFundingStreams h).map
          ((fun s : String × String × Int => s.2.2) ∘
           (fun fs => (fs.recipient, fs.specification,
                       fs.valueAt (c.blockSubsidy h))))).sum =
          ((c.activeFundingStreams h).map
            (fun fs => fs.valueAt (c.blockSubsidy h))).sum := by
        congr 1
      rw [this]
      ring
  · rw [if_neg hc]
    by_cases hf : 0 < h ∧ h ≤ c.lastFoundersRewardHeight h
    · rw [if_pos hf]
      refine ⟨_, rfl, ?_, ?_, ?_, ?_⟩
      · intro hcc
        exact absurd hcc hc
      · intro _ _ _
        exact ⟨rfl, rfl, rfl⟩
      · intro _ hff
        exact absurd hf hff
      · simp only [streamSum]
        ring
    · rw [if_neg hf]
      refine ⟨_, rfl, ?_, ?_, ?_, ?_⟩
      · intro hcc
        exact absurd hcc hc
      · intro _ h1 h2
        exact absurd ⟨h1, h2⟩ hf
      · intro _ _
        exact ⟨rfl, rfl, rfl⟩
      · simp only [streamSum]
        ring

/-- Witness for C1: the decomposition at height 3 of the concrete consensus
assignment cTest, where Canopy is active and two funding streams are listed. -/
theorem getblocksubsidy_decomposes_witness :
    ∃ r, getblocksubsidy cTest 3 = Except.ok r ∧
      (cTest.canopyActive 3 = true →
        r.founders = 0 ∧
        r.fundingstreams = some ((cTest.activeFundingStreams 3).map
          (fun fs => (fs.recipient, fs.specification,
                      fs.valueAt (cTest.blockSubsidy 3)))) ∧
        r.miner = cTest.blockSubsidy 3 -
          ((cTest.activeFundingStreams 3).map
            (fun fs => fs.valueAt (cTest.blockSubsidy 3))).sum) ∧
      (cTest.canopyActive 3 = false → (0 : Int) < 3 →
        (3 : Int) ≤ cTest.lastFoundersRewardHeight 3 →
        r.founders = Int.tdiv (cTest.blockSubsidy 3) 5 ∧
        r.miner = cTest.blockSubsidy 3 - r.founders ∧
        r.fundingstreams = none) ∧
      (cTest.canopyActive 3 = false →
        ¬ ((0 : Int) < 3 ∧ (3 : Int) ≤ cTest.lastFoundersRewardHeight 3) →
        r.miner = cTest.blockSubsidy 3 ∧ r.founders = 0 ∧
        r.fundingstreams = none) ∧
      r.miner + r.founders + streamSum r = cTest.blockSubsidy 3 :=
  getblocksubsidy_decomposes cTest 3 (by decide)

/-- C9: a getblocksubsidy call with a negative explicit height fails with the
height-out-of-range invalid-parameter error, independently of every consensus
collaborator (so before any subsidy computation and without state change). -/
theorem getblocksubsidy_negative_height (c c' : ConsensusParams) (h : Int)
    (hneg : h < 0) :
    getblocksubsidy c h =
      Except.error (RpcError.invalidParameter "Block height out of range") ∧
    getblocksubsidy c h = getblocksubsidy c' h := by
  unfold getblocksubsidy
  rw [if_pos hneg, if_pos hneg]
  exact ⟨rfl, rfl⟩

/-- Witness for C9: height -1 is rejected with the height-out-of-range
error. -/
theorem getblocksubsidy_negative_height_witness :
    getblocksubsidy cTest (-1) =
      Except.error (RpcError.invalidParameter "Block height out of range") ∧
    getblocksubsidy cTest (-1) = getblocksubsidy cTest (-1) :=
  getblocksubsidy_negative_height cTest cTest (-1) (by decide)

/-- C2: a getblocktemplate call in proposal mode with a decodable block
answers "duplicate", "duplicate-invalid" or "duplicate-inconclusive" from the
block index when the block is indexed (by full validity, failed mask, or
neither), answers "inconclusive-not-best-prevblk" for an unindexed block not
building on the tip, and otherwise returns the TestBlockValidity verdict: null
when valid, the reject reason (or "rejected") when invalid, and the
VerifyError failure when the validator reports an error state. -/
theorem gbt_proposal_mode (env : GBTEnv) (p : GBTParams) (st : MiningStatics)
    (trace : List WaitObs) (s : String) (block : CBlock)
    (hconf : env.minerConfigured = true) (hp : p.present = true)
    (hm : p.modeval = ModeVal.strVal "proposal") (hd : p.dataval = some s)
    (hdec : env.decodeHexBlk s = some block) :
    (∀ pindex, env.blockIndex block.hash = some pindex →
       (pindex.validScripts = true →
          getblocktemplateRPC env p st trace =
            some (Except.ok (GBTReply.proposalReply (RpcResult.str "duplicate")), st)) ∧
       (pindex.validScripts = false → pindex.failedMask = true →
          getblocktemplateRPC env p st trace =
            some (Except.ok (GBTReply.proposalReply (RpcResult.str "duplicate-invalid")), st)) ∧
       (pindex.validScripts = false → pindex.failedMask = false →
          getblocktemplateRPC env p st trace =
            some (Except.ok (GBTReply.proposalReply (RpcResult.str "duplicate-inconclusive")), st))) ∧
    (env.blockIndex block.hash = none →
       (block.hashPrevBlock ≠ env.tipHash →
          getblocktemplateRPC env p st trace =
            some (Except.ok (GBTReply.proposalReply (RpcResult.str "inconclusive-not-best-prevblk")), st)) ∧
       (block.hashPrevBlock = env.tipHash →
          ((env.testBlockValidity block).mode = ValidationMode.valid →
             getblocktemplateRPC env p st trace =
               some (Except.ok (GBTReply.proposalReply RpcResult.null), st)) ∧
          ((env.testBlockValidity block).mode = ValidationMode.invalid →
             (env.testBlockValidity block).rejectReason = "" →
             getblocktemplateRPC env p st trace =
               some (Except.ok (GBTReply.proposalReply (RpcResult.str "rejected")), st)) ∧
          ((env.testBlockValidity block).mode = ValidationMode.invalid →
             (env.testBlockValidity block).rejectReason ≠ "" →
             getblocktemplateRPC env p st trace =
               some (Except.ok (GBTReply.proposalReply
                 (RpcResult.str (env.testBlockValidity block).rejectReason)), st)) ∧
          ((env.testBlockValidity block).mode = ValidationMode.error →
             getblocktemplateRPC env p st trace =
               some (Except.error
                 (RpcError.verifyError (env.testBlockValidity block).rejectReason), st)))) := by
  have key : ∀ v, proposalBranch env p.dataval = v →
      getblocktemplateRPC env p st trace =
        some (v.map GBTReply.proposalReply, st) := by
    intro v hv
    rw [← hv]
    simp [getblocktemplateRPC, hconf, hp, hm]
  constructor
  · intro pindex hpi
    refine ⟨?_, ?_, ?_⟩
    · intro hvs
      exact key (Except.ok (RpcResult.str "duplicate"))
        (by simp [proposalBranch, hd, hdec, hpi, hvs])
    · intro hvs hfm
      exact key (Except.ok (RpcResult.str "duplicate-invalid"))
        (by simp [proposalBranch, hd, hdec, hpi, hvs, hfm])
    · intro hvs hfm
      exact key (Except.ok (RpcResult.str "duplicate-inconclusive"))
        (by simp [proposalBranch, hd, hdec, hpi, hvs, hfm])
  · intro hpi
    constructor
    · intro hprev
      exact key (Except.ok (RpcResult.str "inconclusive-not-best-prevblk"))
        (by simp [proposalBranch, hd, hdec, hpi, hprev])
    · intro hprev
      refine ⟨?_, ?_, ?_, ?_⟩
      · intro hv
        exact key (Except.ok RpcResult.null) (by
          simp [proposalBranch, hd, hdec, hpi, hprev, bip22_eval_valid _ hv])
      · intro hv hr
        exact key (Except.ok (RpcResult.str "rejected")) (by
          simp [proposalBranch, hd, hdec, hpi, hprev,
            bip22_eval_invalid_empty _ hv hr])
      · intro hv hr
        exact key (Except.ok (RpcResult.str (env.testBlockValidity block).rejectReason)) (by
          simp [proposalBranch, hd, hdec, hpi, hprev,
            bip22_eval_invalid_nonempty _ hv hr])
      · intro hv
        exact key (Except.error (RpcError.verifyError
            (env.testBlockValidity block).rejectReason)) (by
          simp [proposalBranch, hd, hdec, hpi, hprev, bip22_eval_error _ hv])

/-- Witness for C2: a proposal for an unindexed block building on the tip,
accepted by the validator, answers null. -/
theorem gbt_proposal_mode_witness :
    getblocktemplateRPC envProposal pProposal stTest [] =
      some (Except.ok (GBTReply.proposalReply RpcResult.null), stTest) :=
  (((gbt_proposal_mode envProposal pProposal stTest [] "00ab" ⟨7, 100⟩
      rfl rfl rfl rfl (by decide)).2 rfl).2 rfl).1 rfl

/-- Counterexample to C3 as stated: a header-known block (indexed, neither
fully valid nor marked failed) that ProcessNewBlock accepts with the observer
fired and a valid observer state. The claim's first clause demands the
validator's state (null here), but submitblock returns "duplicate". -/
theorem submitblock_claim_counterexample :
    envSubmitDup.blockIndex (CBlock.mk 5 4).hash =
      some (CBlockIndexEntry.mk false false) ∧
    envSubmitDup.processNewBlockAccepts = true ∧
    envSubmitDup.observerFires = true ∧
    BIP22ValidationResult envSubmitDup.observerState = Except.ok RpcResult.null ∧
    submitblock envSubmitDup (CBlock.mk 5 4) =
      Except.ok (RpcResult.str "duplicate") ∧
    submitblock envSubmitDup (CBlock.mk 5 4) ≠ Except.ok RpcResult.null := by
  refine ⟨by decide, rfl, rfl, by decide, by decide, by decide⟩

/-- C3 amended: for a submitblock call on a block that is not fully valid or
marked failed in the index: when the block was not indexed at all, acceptance
with the observer fired reports the observer's validator state through the
validation-result translation, acceptance without the observer firing returns
"inconclusive", and non-acceptance translates the ProcessNewBlock state; when
the block was previously header-known, acceptance without the observer firing
returns "duplicate-inconclusive" and every other outcome returns
"duplicate". -/
theorem submitblock_cases (env : SubmitEnv) (block : CBlock) :
    (∀ pindex, env.blockIndex block.hash = some pindex →
       pindex.validScripts = false → pindex.failedMask = false →
       (env.processNewBlockAccepts = true → env.observerFires = false →
          submitblock env block =
            Except.ok (RpcResult.str "duplicate-inconclusive")) ∧
       (¬ (env.processNewBlockAccepts = true ∧ env.observerFires = false) →
          submitblock env block = Except.ok (RpcResult.str "duplicate"))) ∧
    (env.blockIndex block.hash = none →
       (env.processNewBlockAccepts = true → env.observerFires = true →
          submitblock env block = BIP22ValidationResult env.observerState) ∧
       (env.processNewBlockAccepts = true → env.observerFires = false →
          submitblock env block = Except.ok (RpcResult.str "inconclusive")) ∧
       (env.processNewBlockAccepts = false →
          submitblock env block = BIP22ValidationResult env.processState)) := by
  constructor
  · intro pindex hpi hvs hfm
    constructor
    · intro ha ho
      simp [submitblock, submitCore, hpi, hvs, hfm, ha, ho]
    · intro hno
      simp only [not_and] at hno
      by_cases ha : env.processNewBlockAccepts = true
      · have ho : env.observerFires = true := by
          have := hno ha
          revert this
          cases env.observerFires <;> simp
        simp [submitblock, submitCore, hpi, hvs, hfm, ha, ho]
      · have ha' : env.processNewBlockAccepts = false := by
          revert ha
          cases env.processNewBlockAccepts <;> simp
        simp [submitblock, submitCore, hpi, hvs, hfm, ha']
  · intro hpi
    refine ⟨?_, ?_, ?_⟩
    · intro ha ho
      simp [submitblock, submitCore, hpi, ha, ho]
    · intro ha ho
      simp [submitblock, submitCore, hpi, ha, ho]
    · intro ha
      simp [submitblock, submitCore, hpi, ha]

/-- Witness for C3 amended: an unindexed block accepted with the observer
fired reports the observer's translated state. -/
theorem submitblock_cases_witness :
    submitblock envSubmitDup (CBlock.mk 9 4) =
      BIP22ValidationResult envSubmitDup.observerState :=
  ((submitblock_cases envSubmitDup (CBlock.mk 9 4)).2 (by decide)).1 rfl rfl

/-- C10: a getblocktemplate call in proposal mode returns the same value for
every peer-connectivity and initial-block-download status, while the
ClientNotConnected and ClientInInitialDownload guards fire on the
template-mode path: no peers outside regtest yields the "Zcash is not
connected!" error, and otherwise initial block download yields the "Zcash is
downloading blocks..." error. -/
theorem gbt_guards_template_only (env : GBTEnv) (p p' : GBTParams)
    (st : MiningStatics) (trace : List WaitObs)
    (hp : p.present = true) (hm : p.modeval = ModeVal.strVal "proposal")
    (hp' : p'.present = false ∨ p'.modeval = ModeVal.missing ∨
           p'.modeval = ModeVal.strVal "template") :
    (∀ b i b' i' : Bool,
       getblocktemplateRPC
           { env with vNodesEmpty := b, initialBlockDownload := i } p st trace =
       getblocktemplateRPC
           { env with vNodesEmpty := b', initialBlockDownload := i' } p st trace) ∧
    (env.minerConfigured = true → env.networkID ≠ "regtest" →
       env.vNodesEmpty = true →
       getblocktemplateRPC env p' st trace =
         some (Except.error
           (RpcError.clientNotConnected "Zcash is not connected!"), st)) ∧
    (env.minerConfigured = true →
       ¬ (env.networkID ≠ "regtest" ∧ env.vNodesEmpty = true) →
       env.initialBlockDownload = true →
       getblocktemplateRPC env p' st trace =
         some (Except.error
           (RpcError.clientInInitialDownload "Zcash is downloading blocks..."), st)) := by
  refine ⟨?_, ?_, ?_⟩
  · intro b i b' i'
    by_cases hc : env.minerConfigured = true
    · rw [gbt_proposal_key
          { env with vNodesEmpty := b, initialBlockDownload := i }
          p st trace hc hp hm,
        gbt_proposal_key
          { env with vNodesEmpty := b', initialBlockDownload := i' }
          p st trace hc hp hm,
        proposalBranch_congr
          { env with vNodesEmpty := b, initialBlockDownload := i }
          { env with vNodesEmpty := b', initialBlockDownload := i' }
          p.dataval rfl rfl rfl rfl]
    · have hc' : env.minerConfigured = false := by
        revert hc
        cases env.minerConfigured <;> simp
      simp [getblocktemplateRPC, hc']
  · intro hconf hnet hvn
    rcases hp' with h | h | h <;>
      simp [getblocktemplateRPC, hconf, h, hnet, hvn]
  · intro hconf hno hibd
    by_cases hreg : env.networkID = "regtest"
    · rcases hp' with h | h | h <;>
        simp [getblocktemplateRPC, hconf, h, hreg, hibd]
    · have hvn : env.vNodesEmpty = false := by
        by_contra hv
        exact hno ⟨hreg, by revert hv; cases env.vNodesEmpty <;> simp⟩
      rcases hp' with h | h | h <;>
        simp [getblocktemplateRPC, hconf, h, hreg, hvn, hibd]

/-- Witness for C10: on an environment with no peers on mainnet, a
template-mode call fails with the not-connected error (while by the same
theorem the proposal-mode call of gbt_proposal_mode_witness succeeds). -/
theorem gbt_guards_template_only_witness :
    getblocktemplateRPC envProposal pTemplate stTest [] =
      some (Except.error
        (RpcError.clientNotConnected "Zcash is not connected!"), stTest) :=
  (gbt_guards_template_only envProposal pProposal pTemplate stTest [] rfl rfl
      (Or.inr (Or.inl rfl))).2.1 rfl (by decide) rfl

/-- Shape of a successful template-mode call: the wait produced a final world
w, and either the rebuild condition held and the reply records the builder
invocation with the post-wait pending coinbase and the fresh template, or it
did not hold and the stored template was reused unchanged. -/
theorem templateMode_ok_shape (env : GBTEnv) (lpv : LongPollVal)
    (st : MiningStatics) (trace : List WaitObs) (out : TemplateOut)
    (st' : MiningStatics)
    (h : templateMode env lpv st trace = some (Except.ok out, st')) :
    ∃ w, gbtWait env lpv st (entryCache env st) trace = some w ∧
      ((rebuildDecision lpv.isPresent st w.tipHash w.mempoolUpdated env.now = true ∧
        ∃ tpl, env.createNewBlock (postWaitNext lpv env.tipHeight w) = some tpl ∧
          out = ⟨some (postWaitNext lpv env.tipHeight w), some tpl⟩ ∧
          st'.pblocktemplate = some tpl) ∨
       (rebuildDecision lpv.isPresent st w.tipHash w.mempoolUpdated env.now = false ∧
        out = ⟨none, st.pblocktemplate⟩ ∧
        st'.pblocktemplate = st.pblocktemplate)) := by
  cases hw : gbtWait env lpv st (entryCache env st) trace with
  | none =>
      rw [templateMode, hw] at h
      exact absurd h (by simp)
  | some w =>
      rw [templateMode, hw] at h
      simp only [] at h
      refine ⟨w, rfl, ?_⟩
      by_cases hsd : lpv.isPresent = true ∧ w.rpcRunning = false
      · rw [if_pos hsd] at h
        exact absurd h (by simp)
      · rw [if_neg hsd] at h
        by_cases hrb : rebuildDecision lpv.isPresent st w.tipHash
            w.mempoolUpdated env.now = true
        · rw [if_pos hrb] at h
          by_cases hmv : env.minerValid = false
          · rw [if_pos hmv] at h
            exact absurd h (by simp)
          · rw [if_neg hmv] at h
            cases hcnb : env.createNewBlock (postWaitNext lpv env.tipHeight w) with
            | none =>
                rw [hcnb] at h
                exact absurd h (by simp)
            | some tpl =>
                rw [hcnb] at h
                simp only [Option.some.injEq, Prod.mk.injEq,
                  Except.ok.injEq] at h
                obtain ⟨h1, h2⟩ := h
                refine Or.inl ⟨hrb, tpl, rfl, h1.symm, ?_⟩
                rw [← h2]
        · have hrb' : rebuildDecision lpv.isPresent st w.tipHash
              w.mempoolUpdated env.now = false := by
            revert hrb
            cases rebuildDecision lpv.isPresent st w.tipHash
              w.mempoolUpdated env.now <;> simp
          rw [if_neg hrb] at h
          simp only [Option.some.injEq, Prod.mk.injEq, Except.ok.injEq] at h
          obtain ⟨h1, h2⟩ := h
          refine Or.inr ⟨hrb', h1.symm, ?_⟩
          rw [← h2]

/-- A successful template-mode reply of getblocktemplate comes from
templateMode applied to the call's longpollid value. -/
theorem gbt_template_key (env : GBTEnv) (p' : GBTParams) (st st' : MiningStatics)
    (trace : List WaitObs) (out : TemplateOut)
    (hconf : env.minerConfigured = true)
    (hp' : p'.present = false ∨ p'.modeval = ModeVal.missing ∨
           p'.modeval = ModeVal.strVal "template")
    (hguard : ¬ (env.networkID ≠ "regtest" ∧ env.vNodesEmpty = true))
    (hibd : env.initialBlockDownload = false)
    (hok : getblocktemplateRPC env p' st trace =
      some (Except.ok (GBTReply.templateReply out), st')) :
    templateMode env (gbtLpv p') st trace = some (Except.ok out, st') := by
  have key : getblocktemplateRPC env p' st trace =
      (match templateMode env (gbtLpv p') st trace with
       | none => none
       | some (r, st2) => some (r.map GBTReply.templateReply, st2)) := by
    by_cases hreg : env.networkID = "regtest"
    · rcases hp' with h | h | h <;>
        simp [getblocktemplateRPC, hconf, h, hreg, hibd]
    · have hvn : env.vNodesEmpty = false := by
        by_contra hv
        exact hguard ⟨hreg, by revert hv; cases env.vNodesEmpty <;> simp⟩
      rcases hp' with h | h | h <;>
        simp [getblocktemplateRPC, hconf, h, hreg, hvn, hibd]
  rw [key] at hok
  cases htm : templateMode env (gbtLpv p') st trace with
  | none =>
      rw [htm] at hok
      exact absurd hok (by simp)
  | some rs =>
      obtain ⟨r, st2⟩ := rs
      rw [htm] at hok
      cases r with
      | error e => exact absurd hok (by simp [Except.map])
      | ok o =>
          simp only [Except.map, Option.some.injEq, Prod.mk.injEq,
            Except.ok.injEq, GBTReply.templateReply.injEq] at hok
          obtain ⟨h1, h2⟩ := hok
          rw [h1, h2]

/-- The precomputation step preserves the invariant that the pending coinbase,
when present, was built for height nHeight + 2. -/
theorem lpStep_next_inv (shielded : Bool) (nHeight : Int)
    (cache : Option Coinbase) (cacheH : Int) (next : Option Coinbase)
    (hinv : ∀ cb, next = some cb → cb.forHeight = nHeight + 2) :
    ∀ cb, (lpStep shielded nHeight cache cacheH next).2.2 = some cb →
      cb.forHeight = nHeight + 2 := by
  intro cb hcb
  unfold lpStep at hcb
  by_cases hc : cache.isNone ∧ shielded = true
  · rw [if_pos hc] at hcb
    simp only [Option.some.injEq] at hcb
    rw [← hcb]
  · rw [if_neg hc] at hcb
    exact hinv cb hcb

/-- The long-poll wait loop preserves the invariant that the pending coinbase,
when present, was built for height nHeight + 2. -/
theorem lpWait_next_height (shielded : Bool) (nHeight : Int) (watched : HashId)
    (lpLast : Nat) :
    ∀ (trace : List WaitObs) (curHash : HashId) (curHeight : Int) (curMem : Nat)
      (curRunning : Bool) (cache : Option Coinbase) (cacheH : Int)
      (next : Option Coinbase) (w : LoopEnd),
      (∀ cb, next = some cb → cb.forHeight = nHeight + 2) →
      lpWait shielded nHeight watched lpLast trace curHash curHeight curMem
        curRunning cache cacheH next = some w →
      ∀ cb, w.next = some cb → cb.forHeight = nHeight + 2 := by
  intro trace
  induction trace with
  | nil =>
      intro curHash curHeight curMem curRunning cache cacheH next w hinv hrun
      by_cases hc : curHash = watched ∧ curRunning = true
      · rw [lpWait, if_pos hc] at hrun
        exact absurd hrun (by simp)
      · rw [lpWait, if_neg hc] at hrun
        injection hrun with hrun'
        subst hrun'
        exact hinv
  | cons o rest ih =>
      intro curHash curHeight curMem curRunning cache cacheH next w hinv hrun
      by_cases hc : curHash = watched ∧ curRunning = true
      · rw [lpWait, if_pos hc] at hrun
        simp only [] at hrun
        by_cases ht : o.tipHash ≠ watched
        · rw [if_pos ht] at hrun
          injection hrun with hrun'
          subst hrun'
          exact lpStep_next_inv shielded nHeight cache cacheH next hinv
        · rw [if_neg ht] at hrun
          by_cases hto : o.timedout = true ∧ o.mempoolUpdated ≠ lpLast
          · rw [if_pos hto] at hrun
            injection hrun with hrun'
            subst hrun'
            intro cb hcb
            exact absurd hcb (by simp)
          · rw [if_neg hto] at hrun
            exact ih o.tipHash o.tipHeight o.mempoolUpdated o.rpcRunning
              (lpStep shielded nHeight cache cacheH next).1
              (lpStep shielded nHeight cache cacheH next).2.1
              (lpStep shielded nHeight cache cacheH next).2.2 w
              (lpStep_next_inv shielded nHeight cache cacheH next hinv) hrun
      · rw [lpWait, if_neg hc] at hrun
        injection hrun with hrun'
        subst hrun'
        exact hinv

/-- A coinbase surviving the entry check of getblocktemplate was built for the
entry tip height + 2, provided the two cache statics are consistent. -/
theorem entryCache_height (env : GBTEnv) (st : MiningStatics) (cb : Coinbase)
    (hconsist : ∀ c, st.cached_next_cb_mtx = some c →
       c.forHeight = st.cached_next_cb_height)
    (h : entryCache env st = some cb) : cb.forHeight = env.tipHeight + 2 := by
  unfold entryCache at h
  by_cases hh : st.cached_next_cb_height ≠ env.tipHeight + 2
  · rw [if_pos hh] at h
    exact absurd h (by simp)
  · rw [if_neg hh] at h
    have h1 := hconsist cb h
    push_neg at hh
    omega

/-- The pending coinbase at exit of the wait dispatch, when present, was built
for the entry tip height + 2. -/
theorem gbtWait_next_height (env : GBTEnv) (lpv : LongPollVal)
    (st : MiningStatics) (trace : List WaitObs) (w : LoopEnd)
    (hconsist : ∀ c, st.cached_next_cb_mtx = some c →
       c.forHeight = st.cached_next_cb_height)
    (hw : gbtWait env lpv st (entryCache env st) trace = some w) :
    ∀ cb, w.next = some cb → cb.forHeight = env.tipHeight + 2 := by
  have hinv : ∀ cb, entryCache env st = some cb →
      cb.forHeight = env.tipHeight + 2 :=
    fun cb hcb => entryCache_height env st cb hconsist hcb
  cases lpv with
  | absent =>
      rw [gbtWait] at hw
      injection hw with hw'
      subst hw'
      exact hinv
  | strVal watched count =>
      rw [gbtWait] at hw
      exact lpWait_next_height env.shieldedMiner env.tipHeight watched count
        trace env.tipHash env.tipHeight env.mempoolUpdated env.rpcRunning
        (entryCache env st) st.cached_next_cb_height (entryCache env st) w
        hinv hw
  | nonString =>
      rw [gbtWait] at hw
      exact lpWait_next_height env.shieldedMiner env.tipHeight env.tipHash
        st.nTransactionsUpdatedLast trace env.tipHash env.tipHeight
        env.mempoolUpdated env.rpcRunning (entryCache env st)
        st.cached_next_cb_height (entryCache env st) w hinv hw

/-- The wait dispatch reads only the cached height and the static transaction
count from the statics. -/
theorem gbtWait_congr (env : GBTEnv) (lpv : LongPollVal)
    (st1 st2 : MiningStatics) (c : Option Coinbase) (trace : List WaitObs)
    (h1 : st1.cached_next_cb_height = st2.cached_next_cb_height)
    (h2 : st1.nTransactionsUpdatedLast = st2.nTransactionsUpdatedLast) :
    gbtWait env lpv st1 c trace = gbtWait env lpv st2 c trace := by
  unfold gbtWait
  rw [h1, h2]

/-- C6: in a successful template-mode getblocktemplate call the stored
template is rebuilt (observable as the builder being invoked) exactly when a
longpollid was present, the tip differs from the one recorded at the last
build, or the mempool updated-counter moved and more than 5 seconds passed
since the last build; when the condition fails, the previously built template
is reused unchanged. -/
theorem gbt_template_rebuild_iff (env : GBTEnv) (p' : GBTParams)
    (st st' : MiningStatics) (trace : List WaitObs) (out : TemplateOut)
    (hconf : env.minerConfigured = true)
    (hp' : p'.present = false ∨ p'.modeval = ModeVal.missing ∨
           p'.modeval = ModeVal.strVal "template")
    (hguard : ¬ (env.networkID ≠ "regtest" ∧ env.vNodesEmpty = true))
    (hibd : env.initialBlockDownload = false)
    (hok : getblocktemplateRPC env p' st trace =
      some (Except.ok (GBTReply.templateReply out), st')) :
    ∃ w, gbtWait env (gbtLpv p') st (entryCache env st) trace = some w ∧
      out.builderArg.isSome =
        rebuildDecision (gbtLpv p').isPresent st w.tipHash w.mempoolUpdated
          env.now ∧
      (rebuildDecision (gbtLpv p').isPresent st w.tipHash w.mempoolUpdated
          env.now = false →
        out.builderArg = none ∧ out.template = st.pblocktemplate ∧
        st'.pblocktemplate = st.pblocktemplate) := by
  have htm := gbt_template_key env p' st st' trace out hconf hp' hguard hibd hok
  obtain ⟨w, hw, hcase⟩ :=
    templateMode_ok_shape env (gbtLpv p') st trace out st' htm
  refine ⟨w, hw, ?_, ?_⟩
  · rcases hcase with ⟨hrb, tpl, _, hout, _⟩ | ⟨hrb, hout, _⟩
    · rw [hout, hrb]
      rfl
    · rw [hout, hrb]
      rfl
  · intro hrb
    rcases hcase with ⟨hrb', _, _, hout, _⟩ | ⟨_, hout, hst⟩
    · rw [hrb'] at hrb
      exact absurd hrb (by simp)
    · exact ⟨by rw [hout], by rw [hout], hst⟩

/-- Witness for C6: on the concrete stale-cache statics with no recorded tip,
the rebuild condition holds and the builder is invoked. -/
theorem gbt_template_rebuild_iff_witness :
    ∃ w, gbtWait envTemplateTest (gbtLpv pTemplate) stStale
        (entryCache envTemplateTest stStale) [] = some w ∧
      (TemplateOut.mk (some (some ⟨12⟩)) (some ⟨1⟩)).builderArg.isSome =
        rebuildDecision (gbtLpv pTemplate).isPresent stStale w.tipHash
          w.mempoolUpdated envTemplateTest.now ∧
      (rebuildDecision (gbtLpv pTemplate).isPresent stStale w.tipHash
          w.mempoolUpdated envTemplateTest.now = false →
        (TemplateOut.mk (some (some ⟨12⟩)) (some ⟨1⟩)).builderArg = none ∧
        (TemplateOut.mk (some (some ⟨12⟩)) (some ⟨1⟩)).template =
          stStale.pblocktemplate ∧
        (MiningStatics.mk 4 (some ⟨12⟩) 12 (some 100) 50
          (some ⟨1⟩)).pblocktemplate = stStale.pblocktemplate) :=
  gbt_template_rebuild_iff envTemplateTest pTemplate stStale
    ⟨4, some ⟨12⟩, 12, some 100, 50, some ⟨1⟩⟩ [] ⟨some (some ⟨12⟩), some ⟨1⟩⟩
    rfl (Or.inr (Or.inl rfl)) (by decide) rfl (by decide)

/-- Counterexample to C5 as stated: a call without a longpollid, entering with
tip height 10 and a cached coinbase recorded for height 12 (which survives the
entry check since 12 = 10 + 2), passes that coinbase to CreateNewBlock for the
template at height 11: the builder receives a coinbase whose height 12 is not
the new tip height + 1 = 11. -/
theorem cached_coinbase_claim_counterexample :
    getblocktemplateRPC envTemplateTest pTemplate stStale [] =
      some (Except.ok (GBTReply.templateReply ⟨some (some ⟨12⟩), some ⟨1⟩⟩),
            ⟨4, some ⟨12⟩, 12, some 100, 50, some ⟨1⟩⟩) ∧
    (Coinbase.mk 12).forHeight ≠ envTemplateTest.tipHeight + 1 :=
  ⟨by decide, by decide⟩

/-- C5 amended: the cache is cleared at entry whenever its recorded height is
not the entry tip height + 2; on calls with a longpollid the pending coinbase
survives to the builder only when the post-wait tip height is the entry tip
height + 1, and the coinbase it receives was built for exactly that new tip
height + 1; on calls without a longpollid the builder may instead receive the
surviving cached coinbase built for the entry tip height + 2, one above the
height of the template being built. -/
theorem cached_coinbase_height (env : GBTEnv) (st : MiningStatics)
    (lpv : LongPollVal) (trace : List WaitObs) (out : TemplateOut)
    (st' : MiningStatics) (cb : Coinbase)
    (hconsist : ∀ c, st.cached_next_cb_mtx = some c →
       c.forHeight = st.cached_next_cb_height) :
    (st.cached_next_cb_height ≠ env.tipHeight + 2 →
       templateMode env lpv st trace =
         templateMode env lpv { st with cached_next_cb_mtx := none } trace) ∧
    (lpv ≠ LongPollVal.absent →
       templateMode env lpv st trace = some (Except.ok out, st') →
       out.builderArg = some (some cb) →
       ∃ w, gbtWait env lpv st (entryCache env st) trace = some w ∧
         w.tipHeight = env.tipHeight + 1 ∧
         cb.forHeight = w.tipHeight + 1) ∧
    (lpv = LongPollVal.absent →
       templateMode env lpv st trace = some (Except.ok out, st') →
       out.builderArg = some (some cb) →
       cb.forHeight = env.tipHeight + 2) := by
  refine ⟨?_, ?_, ?_⟩
  · intro hne
    have e1 : entryCache env st = none := by simp [entryCache, hne]
    have e2 : entryCache env { st with cached_next_cb_mtx := none } = none := by
      simp [entryCache, hne]
    have e3 : gbtWait env lpv { st with cached_next_cb_mtx := none } none trace =
        gbtWait env lpv st none trace :=
      gbtWait_congr env lpv _ _ none trace rfl rfl
    simp only [templateMode, e1, e2, e3]
    cases gbtWait env lpv st none trace with
    | none => rfl
    | some w => rfl
  · intro hlp hrun harg
    obtain ⟨w, hw, hcase⟩ := templateMode_ok_shape env lpv st trace out st' hrun
    refine ⟨w, hw, ?_⟩
    rcases hcase with ⟨hrb, tpl, hcnb, hout, hst⟩ | ⟨hrb, hout, hst⟩
    · rw [hout] at harg
      simp only [Option.some.injEq] at harg
      cases lpv with
      | absent => exact absurd rfl hlp
      | strVal watched count =>
          simp only [postWaitNext] at harg
          by_cases hh : w.tipHeight ≠ env.tipHeight + 1
          · rw [if_pos hh] at harg
            exact absurd harg (by simp)
          · rw [if_neg hh] at harg
            push_neg at hh
            have hcb := gbtWait_next_height env (LongPollVal.strVal watched count)
              st trace w hconsist hw cb harg
            exact ⟨hh, by omega⟩
      | nonString =>
          simp only [postWaitNext] at harg
          by_cases hh : w.tipHeight ≠ env.tipHeight + 1
          · rw [if_pos hh] at harg
            exact absurd harg (by simp)
          · rw [if_neg hh] at harg
            push_neg at hh
            have hcb := gbtWait_next_height env LongPollVal.nonString
              st trace w hconsist hw cb harg
            exact ⟨hh, by omega⟩
    · rw [hout] at harg
      exact absurd harg (by simp)
  · intro hlp hrun harg
    subst hlp
    obtain ⟨w, hw, hcase⟩ :=
      templateMode_ok_shape env LongPollVal.absent st trace out st' hrun
    rcases hcase with ⟨hrb, tpl, hcnb, hout, hst⟩ | ⟨hrb, hout, hst⟩
    · rw [hout] at harg
      simp only [Option.some.injEq] at harg
      simp only [postWaitNext] at harg
      exact gbtWait_next_height env LongPollVal.absent st trace w hconsist hw
        cb harg
    · rw [hout] at harg
      exact absurd harg (by simp)

/-- Witness for C5 amended: on the concrete stale-cache run without a
longpollid, the builder's coinbase was built for the entry tip height + 2. -/
theorem cached_coinbase_height_witness :
    (Coinbase.mk 12).forHeight = envTemplateTest.tipHeight + 2 :=
  (cached_coinbase_height envTemplateTest stStale LongPollVal.absent []
      ⟨some (some ⟨12⟩), some ⟨1⟩⟩ ⟨4, some ⟨12⟩, 12, some 100, 50, some ⟨1⟩⟩
      ⟨12⟩ (by decide)).2.2 rfl (by decide) rfl

end ZMining
